import Mathlib

/-!
Shallow embedding of `src/main.py` (pdf_ocr): a batch script that extracts
text from PDF files, page by page, using direct text extraction when the
extracted text is non-empty after stripping whitespace and OCR on the
rendered page image otherwise, then writes one text file per PDF and moves
the original aside.

The libraries the script calls (pdfplumber, easyocr, PIL, the filesystem,
the logger) are modelled as oracles carried by the input data: each page
records what `page.extract_text()` returns and what the render/OCR calls
would do; each file records whether its filesystem writes would raise.
Side effects (log lines, file writes, moves, directory creation) are
modelled as an ordered list of events. An uncaught Python exception is
modelled as `Except.error` carrying the events performed before the fault.
-/

namespace PdfOcr

/-- Outcome of the OCR fallback path for one page, modelling the body of the
inner `try` in `extract_text_from_pdf` (src/main.py lines 101-115):
`renderFault e` means `page.to_image(resolution=150)` (or the numpy
conversion) raises with message `e`, before `reader.readtext` is called;
`ocrFault e` means rendering succeeds and `reader.readtext` raises with
message `e`; `ok results` means `reader.readtext(img_array, detail=0)`
returns the list `results` of text fragments. -/
inductive OCROutcome where
  | renderFault (e : String)
  | ocrFault (e : String)
  | ok (results : List String)
deriving DecidableEq

/-- One page of an open PDF, as the script observes it:
`extract_text` is what `page.extract_text()` returns (`none` models Python
`None`), and `ocrOutcome` is what the render/OCR calls would do if the
script takes the OCR path on this page. -/
structure Page where
  extract_text : Option String
  ocrOutcome : OCROutcome
deriving DecidableEq

/-- What opening a document does: `failure e` models `pdfplumber.open` (or
page iteration) raising with message `e` — caught by the outer `try` of
`extract_text_from_pdf`, which then returns `""`; `pages ps` models a
document that opens and iterates successfully, yielding `ps` in order. -/
inductive DocOutcome where
  | failure (e : String)
  | pages (ps : List Page)
deriving DecidableEq

/-- An observable side effect of the script: a leveled log line, a console
print, a text-file write, a move of an original PDF, a `mkdir` call
(which creates the directory when absent, `exist_ok=True`), or the
installation of the file log handler. -/
inductive Event where
  | logInfo (msg : String)
  | logWarning (msg : String)
  | logError (msg : String)
  | consolePrint (msg : String)
  | writeText (filename : String) (content : String)
  | moveOriginal (name : String)
  | mkdir (path : String)
  | setupLog (path : String)
deriving DecidableEq

/-- The page marker prefixed to a page's text block, from the f-strings at
src/main.py lines 97 and 111: `"\n--- Page {n} ---\n"` for directly
extracted text and `"\n--- Page {n} (OCR) ---\n"` for OCR text. -/
def pageMarker (n : Nat) (isOCR : Bool) : String :=
  if isOCR then "\n--- Page " ++ toString n ++ " (OCR) ---\n"
  else "\n--- Page " ++ toString n ++ " ---\n"

/-- Python's `str.strip()` with no argument, as the script uses it at
src/main.py lines 96 and 117: remove whitespace characters from both ends
of the string. -/
def pyStrip (s : String) : String :=
  String.mk (((s.data.dropWhile Char.isWhitespace).reverse.dropWhile
    Char.isWhitespace).reverse)

/-- The truthiness test `if text and text.strip():` at src/main.py line 96:
`extract_text` returned an actual string that is non-empty and non-empty
after stripping whitespace. -/
def usesDirect (p : Page) : Bool :=
  match p.extract_text with
  | some t => t != "" && pyStrip t != ""
  | none => false

/-- Result of processing one page inside the loop of
`extract_text_from_pdf`: the string appended to `full_text` (empty when
the page contributes nothing), how many times `page.to_image` and
`reader.readtext` were called, and the log events emitted. -/
structure PageResult where
  block : String
  renderCalls : Nat
  ocrCalls : Nat
  events : List Event
deriving DecidableEq

/-- The OCR fallback for one page (the inner `try` of
`extract_text_from_pdf`, src/main.py lines 100-115): render the page and
run `reader.readtext`; when fragments come back, join them with newlines
under an OCR page marker; when the list is empty, log
`"No text found on page {pn}"`; when rendering or OCR raises, log
`"Could not OCR page {pn}: {e}"`. The faulty and empty cases contribute
an empty block. -/
def processPageOCR (pn : Nat) (p : Page) : PageResult :=
  match p.ocrOutcome with
  | .renderFault e =>
    { block := "", renderCalls := 1, ocrCalls := 0,
      events := [.logWarning ("Could not OCR page " ++ toString pn ++ ": " ++ e)] }
  | .ocrFault e =>
    { block := "", renderCalls := 1, ocrCalls := 1,
      events := [.logWarning ("Could not OCR page " ++ toString pn ++ ": " ++ e)] }
  | .ok results =>
    if results.isEmpty then
      { block := "", renderCalls := 1, ocrCalls := 1,
        events := [.logWarning ("No text found on page " ++ toString pn)] }
    else
      { block := pageMarker pn true ++ String.intercalate "\n" results,
        renderCalls := 1, ocrCalls := 1, events := [] }

/-- One iteration of the page loop of `extract_text_from_pdf`
(src/main.py lines 93-115) for page number `pn` (1-based): try direct
extraction first; if its result is truthy and truthy after `strip()`,
append the direct block and continue; otherwise fall back to OCR. -/
def processPage (pn : Nat) (p : Page) : PageResult :=
  match p.extract_text with
  | some t =>
    if t != "" && pyStrip t != "" then
      { block := pageMarker pn false ++ t, renderCalls := 0, ocrCalls := 0, events := [] }
    else processPageOCR pn p
  | none => processPageOCR pn p

/-- Accumulated result of running the page loop over a list of pages. -/
structure PagesResult where
  text : String
  renderCalls : Nat
  ocrCalls : Nat
  events : List Event
deriving DecidableEq

/-- The page loop `for page_num, page in enumerate(pdf.pages, 1):` of
`extract_text_from_pdf`, starting at page number `pn`: concatenates the
per-page blocks into the accumulator `full_text` in page order and
collects events in order. -/
def processPagesFrom (pn : Nat) : List Page → PagesResult
  | [] => { text := "", renderCalls := 0, ocrCalls := 0, events := [] }
  | p :: ps =>
    let r := processPage pn p
    let rest := processPagesFrom (pn + 1) ps
    { text := r.block ++ rest.text,
      renderCalls := r.renderCalls + rest.renderCalls,
      ocrCalls := r.ocrCalls + rest.ocrCalls,
      events := r.events ++ rest.events }

/-- `extract_text_from_pdf` (src/main.py lines 87-120): on a document that
opens and iterates, run the page loop and return `full_text.strip()`
together with the log events; if opening or iterating raises, the outer
`except` logs an error naming the document and returns `""`. -/
def extract_text_from_pdf (name : String) (doc : DocOutcome) : String × List Event :=
  match doc with
  | .failure e => ("", [.logError ("Error processing " ++ name ++ ": " ++ e)])
  | .pages ps =>
    let r := processPagesFrom 1 ps
    (pyStrip r.text, r.events)

/-- One PDF file found in the input folder: its stem and full name
(`pdf_path.stem`, `pdf_path.name`), what opening it does, and whether the
filesystem calls `output_file.write_text` and `shutil.move` for it would
raise (the script does not catch those, so they would propagate). -/
structure FileEntry where
  stem : String
  name : String
  doc : DocOutcome
  writeFault : Bool
  moveFault : Bool
deriving DecidableEq

/-- One iteration of the file loop of `process_pdfs`
(src/main.py lines 129-142), for file `i` of `n`: log the progress
header, extract the text, write it to `{stem}.txt`, move the original,
and log the success line. A write or move fault is uncaught: the events
performed up to the fault are returned in `Except.error`. -/
def processOne (i n : Nat) (f : FileEntry) : Except (List Event) (List Event) :=
  let header := Event.logInfo ("[" ++ toString i ++ "/" ++ toString n ++
    "] Processing: " ++ f.name)
  let ex := extract_text_from_pdf f.name f.doc
  if f.writeFault then .error (header :: ex.2)
  else if f.moveFault then
    .error (header :: ex.2 ++ [.writeText (f.stem ++ ".txt") ex.1])
  else
    .ok (header :: ex.2 ++
      [.writeText (f.stem ++ ".txt") ex.1,
       .moveOriginal f.name,
       .logInfo ("  ✓ Saved: " ++ f.stem ++ ".txt")])

/-- The file loop of `process_pdfs` over the remaining files, the next one
having 1-based index `i` out of `n`: an uncaught fault in any file stops
the loop, keeping the events performed so far. -/
def processList (i n : Nat) : List FileEntry → Except (List Event) (List Event)
  | [] => .ok []
  | f :: fs =>
    match processOne i n f with
    | .error evs => .error evs
    | .ok evs =>
      match processList (i + 1) n fs with
      | .error evs2 => .error (evs ++ evs2)
      | .ok evs2 => .ok (evs ++ evs2)

/-- `process_pdfs` (src/main.py lines 123-144): log how many PDFs were
found, loop over them, and return `len(pdf_files)` — the count includes
every file, also those whose extraction failed and produced empty
output. -/
def process_pdfs (files : List FileEntry) : Except (List Event) (List Event × Nat) :=
  let found := Event.logInfo ("Found " ++ toString files.length ++
    " PDF file(s). Starting OCR...")
  match processList 1 files.length files with
  | .error evs => .error (found :: evs)
  | .ok evs => .ok (found :: evs, files.length)

/-- `check_dependencies` (src/main.py lines 76-84): re-import easyocr and
log availability. `importOk` is whether `import easyocr` succeeds at this
point of the run. -/
def check_dependencies (importOk : Bool) : List Event × Bool :=
  if importOk then
    ([.logInfo "✓ EasyOCR available (pure Python - no system dependencies needed)"], true)
  else
    ([.logError "❌ EasyOCR not found. Install with: uv sync"], false)

/-- `main` (src/main.py lines 147-175): create the base `input` and
`output` folders, list the PDFs, and if none are found print a console
message and return; otherwise create the timestamped `original` and
`processed` directories, set up file logging, log the run banner (with
the resolved paths, `resolve` modelling `Path.resolve`), run the
dependency check — aborting when it fails — then run `process_pdfs` and
log the completion lines. `ts` models `datetime.now().strftime(...)`. -/
def mainRun (importOk : Bool) (resolve : String → String) (ts : String)
    (files : List FileEntry) : Except (List Event) (List Event) :=
  let setup : List Event := [.mkdir "input", .mkdir "output"]
  if files.isEmpty then
    .ok (setup ++ [.consolePrint "No PDF files found in /input folder."])
  else
    let tdir := "output/" ++ ts
    let pre : List Event := setup ++
      [.mkdir (tdir ++ "/original"), .mkdir (tdir ++ "/processed"),
       .setupLog (tdir ++ "/ocr_log.txt"),
       .logInfo "PDF OCR - Processing PDFs from /input folder",
       .logInfo ("Input folder:  " ++ resolve "input"),
       .logInfo ("Output folder: " ++ resolve tdir)]
    let dep := check_dependencies importOk
    if dep.2 then
      match process_pdfs files with
      | .error evs => .error (pre ++ dep.1 ++ evs)
      | .ok (evs, count) =>
        .ok (pre ++ dep.1 ++ evs ++
          [.logInfo ("✓ Completed! " ++ toString count ++ " PDF(s) processed."),
           .logInfo ("Results saved to: " ++ ts ++ "/")])
    else
      .ok (pre ++ dep.1 ++
        [.logInfo "\n⚠️  Process aborted due to missing dependencies."])

/-- The whole process, including Python module load. Line 13 of
src/main.py imports easyocr unconditionally and line 20 constructs the
reader, before any other statement runs: when the dependency is
unavailable the process dies there with an uncaught `ImportError`, before
any side effect (`Except.error []`). When module load succeeds, `main`
runs, and the `import easyocr` inside `check_dependencies` is a
`sys.modules` hit that cannot fail — so `check_dependencies` is reached
with `importOk = true`. -/
def runProgram (easyocrAvailable : Bool) (resolve : String → String)
    (ts : String) (files : List FileEntry) : Except (List Event) (List Event) :=
  if easyocrAvailable then mainRun true resolve ts files
  else .error []

/-- The events a run performed, whether or not it ended in an uncaught
exception. -/
def runEvents : Except (List Event) (List Event) → List Event
  | .error evs => evs
  | .ok evs => evs

/-- How many original files a list of events moves aside. -/
def movedCount (evs : List Event) : Nat :=
  (evs.filter fun e => match e with | .moveOriginal _ => true | _ => false).length

/-- Whether a list of events contains an error-level log line. -/
def hasLogError (evs : List Event) : Bool :=
  evs.any fun e => match e with | .logError _ => true | _ => false

/-- `main` without its dependency-abort branch: the straight-line
continuation that always proceeds from the banner to `process_pdfs`,
used to state that the abort branch is unreachable. -/
def mainRunStraight (resolve : String → String) (ts : String)
    (files : List FileEntry) : Except (List Event) (List Event) :=
  let setup : List Event := [.mkdir "input", .mkdir "output"]
  if files.isEmpty then
    .ok (setup ++ [.consolePrint "No PDF files found in /input folder."])
  else
    let tdir := "output/" ++ ts
    let pre : List Event := setup ++
      [.mkdir (tdir ++ "/original"), .mkdir (tdir ++ "/processed"),
       .setupLog (tdir ++ "/ocr_log.txt"),
       .logInfo "PDF OCR - Processing PDFs from /input folder",
       .logInfo ("Input folder:  " ++ resolve "input"),
       .logInfo ("Output folder: " ++ resolve tdir)]
    let dep := check_dependencies true
    match process_pdfs files with
    | .error evs => .error (pre ++ dep.1 ++ evs)
    | .ok (evs, count) =>
      .ok (pre ++ dep.1 ++ evs ++
        [.logInfo ("✓ Completed! " ++ toString count ++ " PDF(s) processed."),
         .logInfo ("Results saved to: " ++ ts ++ "/")])

/-- A sample file whose document fails to open. -/
def fBad : FileEntry := ⟨"bad", "bad.pdf", .failure "corrupt", false, false⟩

/-- A sample file with one page of direct text and no filesystem faults. -/
def gOk : FileEntry := ⟨"ok", "ok.pdf", .pages [⟨some "hi", .ok []⟩], false, false⟩

/-- A sample file whose text-file write raises. -/
def fWriteFault : FileEntry := ⟨"w", "w.pdf", .pages [], true, false⟩

/-- A sample file whose move of the original raises. -/
def fMoveFault : FileEntry := ⟨"m", "m.pdf", .pages [], false, true⟩

/-- A second well-behaved sample file. -/
def gOk2 : FileEntry := ⟨"g", "g.pdf", .pages [], false, false⟩

/-- Whether the render/OCR path would yield no text on this page: OCR
returns no fragments, or rendering or OCR raises. -/
def noTextOutcome (p : Page) : Bool :=
  match p.ocrOutcome with
  | .ok results => results.isEmpty
  | _ => true

/-- Spec-side description of one page's block, following the spec's words
(sections 4.1 and 4.2): resolve the page's text — direct extraction when
non-empty after trimming, otherwise the OCR fragments joined with
newlines — and prefix it with a page marker carrying the 1-based page
number and the source tag; a page that resolves to no text contributes
the empty string. -/
def specPageBlock (pn : Nat) (p : Page) : String :=
  if usesDirect p then
    match p.extract_text with
    | some t => pageMarker pn false ++ t
    | none => ""
  else
    match p.ocrOutcome with
    | .ok results =>
      if results.isEmpty then ""
      else pageMarker pn true ++ String.intercalate "\n" results
    | _ => ""

/-- Spec-side list of per-page blocks in page order, numbering pages from
`pn`. -/
def specBlocks (pn : Nat) : List Page → List String
  | [] => []
  | p :: ps => specPageBlock pn p :: specBlocks (pn + 1) ps

/-- Ordered concatenation of a list of blocks. -/
def concatBlocks : List String → String
  | [] => ""
  | b :: bs => b ++ concatBlocks bs

/-- Spec-side description of a successfully opened document's extraction
result: the whitespace-trimmed ordered concatenation of its per-page
blocks, pages numbered from 1. -/
def spec_extraction_result (pages : List Page) : String :=
  pyStrip (concatBlocks (specBlocks 1 pages))

/-- The direct page marker and the OCR page marker differ (for any page
number): they have different lengths. -/
theorem pageMarker_false_ne_true (n : Nat) : pageMarker n false ≠ pageMarker n true := by
  intro h
  have h2 := congrArg (fun s => s.data.length) h
  have e1 : ("\n--- Page " : String).data.length = 10 := rfl
  have e2 : (" ---\n" : String).data.length = 5 := rfl
  have e3 : (" (OCR) ---\n" : String).data.length = 11 := rfl
  simp only [pageMarker, if_neg, if_pos, Bool.false_eq_true, ite_false, ite_true,
    String.data_append, List.length_append, e1, e2, e3] at h2
  omega

/-- The block a page contributes in the code equals the spec-side block. -/
theorem processPage_block (pn : Nat) (p : Page) :
    (processPage pn p).block = specPageBlock pn p := by
  rcases p with ⟨et, oc⟩
  cases et <;> cases oc <;>
    simp [processPage, specPageBlock, usesDirect, processPageOCR] <;>
    split <;> simp_all [processPageOCR] <;> split <;> simp_all

/-- The accumulator of the page loop is the concatenation of the spec-side
blocks. -/
theorem processPagesFrom_text (pn : Nat) (ps : List Page) :
    (processPagesFrom pn ps).text = concatBlocks (specBlocks pn ps) := by
  induction ps generalizing pn with
  | nil => rfl
  | cons p ps ih =>
    simp [processPagesFrom, specBlocks, concatBlocks, processPage_block, ih]

/-- When the direct text is truthy, the direct branch runs: no render, no
OCR, no events, a direct block. -/
theorem processPage_of_usesDirect (pn : Nat) (p : Page) (h : usesDirect p = true) :
    (processPage pn p).renderCalls = 0 ∧ (processPage pn p).ocrCalls = 0 ∧
    (processPage pn p).events = [] := by
  rcases p with ⟨et, oc⟩
  cases et <;> simp_all [usesDirect, processPage]

/-- When the direct text is falsy, the page takes the OCR fallback path. -/
theorem processPage_of_not_usesDirect (pn : Nat) (p : Page) (h : usesDirect p = false) :
    processPage pn p = processPageOCR pn p := by
  rcases p with ⟨et, oc⟩
  cases et <;> simp_all [usesDirect, processPage]

/-- The OCR fallback always renders exactly once. -/
theorem processPageOCR_renderCalls (pn : Nat) (p : Page) :
    (processPageOCR pn p).renderCalls = 1 := by
  rcases p with ⟨et, oc⟩
  cases oc <;> simp [processPageOCR] <;> split <;> rfl

/-- When the OCR fallback yields no text, the block is empty and exactly
one warning naming the page number is logged. -/
theorem processPageOCR_no_text (pn : Nat) (p : Page) (h : noTextOutcome p = true) :
    (processPageOCR pn p).block = "" ∧
    ∃ a b, (processPageOCR pn p).events = [Event.logWarning (a ++ toString pn ++ b)] := by
  rcases p with ⟨et, oc⟩
  cases oc with
  | renderFault e =>
    exact ⟨rfl, "Could not OCR page ", ": " ++ e, by simp [processPageOCR, String.append_assoc]⟩
  | ocrFault e =>
    exact ⟨rfl, "Could not OCR page ", ": " ++ e, by simp [processPageOCR, String.append_assoc]⟩
  | ok results =>
    simp_all [noTextOutcome, processPageOCR]
    exact ⟨"No text found on page ", "", by simp⟩

/-- C1: for every page whose direct extraction returns a string that is
non-empty after trimming, the OCR engine is never invoked (and the page
is never rendered), and the page's block carries the direct marker,
which is distinct from the OCR marker. -/
theorem direct_nonempty_skips_ocr (pn : Nat) (p : Page) (t : String)
    (he : p.extract_text = some t) (ht : (t != "" && pyStrip t != "") = true) :
    (processPage pn p).ocrCalls = 0 ∧ (processPage pn p).renderCalls = 0 ∧
    (processPage pn p).block = pageMarker pn false ++ t ∧
    pageMarker pn false ≠ pageMarker pn true := by
  rcases p with ⟨et, oc⟩
  cases he
  simp [processPage, ht, pageMarker_false_ne_true]

/-- Witness for C1 at a concrete page. -/
theorem direct_nonempty_skips_ocr_witness :
    (processPage 1 ⟨some "hello", OCROutcome.ok []⟩).ocrCalls = 0 ∧
    (processPage 1 ⟨some "hello", OCROutcome.ok []⟩).renderCalls = 0 ∧
    (processPage 1 ⟨some "hello", OCROutcome.ok []⟩).block = pageMarker 1 false ++ "hello" ∧
    pageMarker 1 false ≠ pageMarker 1 true :=
  direct_nonempty_skips_ocr 1 ⟨some "hello", OCROutcome.ok []⟩ "hello" rfl (by decide)

/-- C2: for every page, exactly one text source is used — direct when its
result is truthy after stripping, the OCR fallback otherwise, never both
and never neither; when the fallback yields no text the page contributes
an empty block and exactly one warning naming the page number is logged;
and the loop always continues with the remaining pages, appending their
text and events after this page's. -/
theorem exactly_one_text_source (pn : Nat) (p : Page) (ps : List Page) :
    ((usesDirect p = true ∧ (processPage pn p).renderCalls = 0 ∧
        (processPage pn p).ocrCalls = 0) ∨
      (usesDirect p = false ∧ (processPage pn p).renderCalls = 1)) ∧
    ¬(usesDirect p = true ∧ (processPage pn p).renderCalls = 1) ∧
    (usesDirect p = false → noTextOutcome p = true →
      (processPage pn p).block = "" ∧
      ∃ a b, (processPage pn p).events = [Event.logWarning (a ++ toString pn ++ b)]) ∧
    (processPagesFrom pn (p :: ps)).events =
      (processPage pn p).events ++ (processPagesFrom (pn + 1) ps).events ∧
    (processPagesFrom pn (p :: ps)).text =
      (processPage pn p).block ++ (processPagesFrom (pn + 1) ps).text := by
  refine ⟨?_, ?_, fun hd hn => ?_, rfl, rfl⟩
  · cases h : usesDirect p with
    | true =>
      exact Or.inl ⟨rfl, (processPage_of_usesDirect pn p h).1,
        (processPage_of_usesDirect pn p h).2.1⟩
    | false =>
      refine Or.inr ⟨rfl, ?_⟩
      rw [processPage_of_not_usesDirect pn p h]
      exact processPageOCR_renderCalls pn p
  · rintro ⟨h1, h2⟩
    have := (processPage_of_usesDirect pn p h1).1
    omega
  · rw [processPage_of_not_usesDirect pn p hd]
    exact processPageOCR_no_text pn p hn

/-- Witness for C2's conditional part at a concrete page. -/
theorem exactly_one_text_source_witness :
    (processPage 4 ⟨some "  ", OCROutcome.ok []⟩).block = "" ∧
    ∃ a b, (processPage 4 ⟨some "  ", OCROutcome.ok []⟩).events =
      [Event.logWarning (a ++ toString 4 ++ b)] :=
  (exactly_one_text_source 4 ⟨some "  ", OCROutcome.ok []⟩ []).2.2.1 (by decide) rfl

/-- C3 counterexample: on a page with no direct text whose rendering call
raises, the OCR engine is invoked zero times, not exactly once — the
exception in `page.to_image` occurs before `reader.readtext` is
reached. -/
theorem ocr_exactly_once_counterexample :
    usesDirect ⟨some "", OCROutcome.renderFault "cannot render"⟩ = false ∧
    ¬(processPage 7 ⟨some "", OCROutcome.renderFault "cannot render"⟩).ocrCalls = 1 := by
  decide

/-- C3 amended: for every page whose direct extraction is empty or
whitespace-only, the page is rendered exactly once and the OCR engine is
invoked at most once — exactly once when rendering does not raise, and
zero times when it does. -/
theorem ocr_at_most_once (pn : Nat) (p : Page) (hd : usesDirect p = false) :
    (processPage pn p).renderCalls = 1 ∧
    (processPage pn p).ocrCalls ≤ 1 ∧
    ((∀ e, p.ocrOutcome ≠ OCROutcome.renderFault e) → (processPage pn p).ocrCalls = 1) ∧
    (∀ e, p.ocrOutcome = OCROutcome.renderFault e → (processPage pn p).ocrCalls = 0) := by
  rw [processPage_of_not_usesDirect pn p hd]
  rcases p with ⟨et, oc⟩
  cases oc <;> simp [processPageOCR] <;> split <;> simp

/-- Witness for C3's amended statement at a concrete page. -/
theorem ocr_at_most_once_witness :
    (processPage 1 ⟨none, OCROutcome.ok ["x"]⟩).renderCalls = 1 ∧
    (processPage 1 ⟨none, OCROutcome.ok ["x"]⟩).ocrCalls = 1 :=
  ⟨(ocr_at_most_once 1 ⟨none, OCROutcome.ok ["x"]⟩ rfl).1,
   (ocr_at_most_once 1 ⟨none, OCROutcome.ok ["x"]⟩ rfl).2.2.1
     (fun e h => OCROutcome.noConfusion h)⟩

/-- C4: for every document that opens and iterates successfully, the
extraction result is the whitespace-trimmed ordered concatenation of the
spec-side per-page blocks, pages numbered from 1, direct and OCR blocks
marked by their page markers. -/
theorem extraction_result_is_block_concat (name : String) (pages : List Page) :
    (extract_text_from_pdf name (DocOutcome.pages pages)).1 =
      spec_extraction_result pages := by
  simp [extract_text_from_pdf, spec_extraction_result, processPagesFrom_text]

/-- C9: a page that resolves to no text — direct extraction falsy, and the
OCR fallback faulting or returning no fragments — contributes an empty
block, so the document text over this page and the remaining pages is
exactly the text of the remaining pages: no marker, no block. -/
theorem no_text_page_omitted (pn : Nat) (p : Page) (ps : List Page)
    (hd : usesDirect p = false) (hn : noTextOutcome p = true) :
    (processPage pn p).block = "" ∧
    (processPagesFrom pn (p :: ps)).text = (processPagesFrom (pn + 1) ps).text := by
  have hb := (processPageOCR_no_text pn p hn).1
  rw [processPage_of_not_usesDirect pn p hd] at *
  refine ⟨hb, ?_⟩
  show (processPage pn p).block ++ (processPagesFrom (pn + 1) ps).text = _
  rw [processPage_of_not_usesDirect pn p hd, hb]
  simp

/-- Witness for C9 at a concrete page. -/
theorem no_text_page_omitted_witness :
    (processPage 1 ⟨some " \n ", OCROutcome.ocrFault "engine crash"⟩).block = "" ∧
    (processPagesFrom 1 [⟨some " \n ", OCROutcome.ocrFault "engine crash"⟩,
        ⟨some "second page", OCROutcome.ok []⟩]).text =
      (processPagesFrom 2 [⟨some "second page", OCROutcome.ok []⟩]).text :=
  no_text_page_omitted 1 ⟨some " \n ", OCROutcome.ocrFault "engine crash"⟩
    [⟨some "second page", OCROutcome.ok []⟩] (by decide) rfl

/-- C5: a document that fails to open is recovered at the document level:
its extraction result is the empty string, an error naming the document
is logged, an (empty) text file is still written for it, its original is
still moved aside, the success line is still logged, the batch continues
with the subsequent files, and the processed count still includes it. -/
theorem doc_failure_recovered (i n : Nat) (e : String) (f : FileEntry)
    (fs : List FileEntry) (hdoc : f.doc = DocOutcome.failure e)
    (hw : f.writeFault = false) (hm : f.moveFault = false) :
    (extract_text_from_pdf f.name f.doc).1 = "" ∧
    processOne i n f = Except.ok
      [Event.logInfo ("[" ++ toString i ++ "/" ++ toString n ++ "] Processing: " ++ f.name),
       Event.logError ("Error processing " ++ f.name ++ ": " ++ e),
       Event.writeText (f.stem ++ ".txt") "",
       Event.moveOriginal f.name,
       Event.logInfo ("  ✓ Saved: " ++ f.stem ++ ".txt")] ∧
    (∀ r, processList (i + 1) n fs = Except.ok r →
      processList i n (f :: fs) = Except.ok
        ([Event.logInfo ("[" ++ toString i ++ "/" ++ toString n ++ "] Processing: " ++ f.name),
          Event.logError ("Error processing " ++ f.name ++ ": " ++ e),
          Event.writeText (f.stem ++ ".txt") "",
          Event.moveOriginal f.name,
          Event.logInfo ("  ✓ Saved: " ++ f.stem ++ ".txt")] ++ r)) ∧
    (∀ evs c, process_pdfs (f :: fs) = Except.ok (evs, c) → c = fs.length + 1) := by
  have h1 : (extract_text_from_pdf f.name f.doc).1 = "" := by
    rw [hdoc]; rfl
  have h2 : processOne i n f = Except.ok
      [Event.logInfo ("[" ++ toString i ++ "/" ++ toString n ++ "] Processing: " ++ f.name),
       Event.logError ("Error processing " ++ f.name ++ ": " ++ e),
       Event.writeText (f.stem ++ ".txt") "",
       Event.moveOriginal f.name,
       Event.logInfo ("  ✓ Saved: " ++ f.stem ++ ".txt")] := by
    simp [processOne, extract_text_from_pdf, hdoc, hw, hm, pyStrip]
  refine ⟨h1, h2, fun r hr => ?_, fun evs c h => ?_⟩
  · simp [processList, h2, hr]
  · simp only [process_pdfs, List.length_cons] at h
    cases hp : processList 1 (fs.length + 1) (f :: fs) with
    | error e2 => rw [hp] at h; simp at h
    | ok e2 =>
      rw [hp] at h
      simp at h
      omega

/-- Witness for C5: a two-file batch whose first document fails to open;
both files are fully processed and the failing one yields an empty text
file. -/
theorem doc_failure_recovered_witness :
    (extract_text_from_pdf fBad.name fBad.doc).1 = "" ∧
    processList 1 2 [fBad, gOk] = Except.ok
      [Event.logInfo "[1/2] Processing: bad.pdf",
       Event.logError "Error processing bad.pdf: corrupt",
       Event.writeText "bad.txt" "",
       Event.moveOriginal "bad.pdf",
       Event.logInfo "  ✓ Saved: bad.txt",
       Event.logInfo "[2/2] Processing: ok.pdf",
       Event.writeText "ok.txt" "--- Page 1 ---\nhi",
       Event.moveOriginal "ok.pdf",
       Event.logInfo "  ✓ Saved: ok.txt"] := by
  have h := doc_failure_recovered 1 2 "corrupt" fBad [gOk] rfl rfl rfl
  refine ⟨h.1, ?_⟩
  have h3 := h.2.2.1
    [Event.logInfo "[2/2] Processing: ok.pdf",
     Event.writeText "ok.txt" "--- Page 1 ---\nhi",
     Event.moveOriginal "ok.pdf",
     Event.logInfo "  ✓ Saved: ok.txt"] rfl
  simpa [fBad] using h3

/-- C6 counterexample: with the OCR dependency unavailable and one input
file present, the process dies at module import: the batch is aborted
with no events at all, so in particular no error is ever logged — the
failure of the import surfaces as an uncaught exception before any logger
exists, not as a logged error. -/
theorem missing_dependency_counterexample :
    runProgram false (fun s => s) "20240101_120000" [gOk] = Except.error [] ∧
    hasLogError (runEvents (runProgram false (fun s => s) "20240101_120000" [gOk])) = false := by
  exact ⟨rfl, rfl⟩

/-- C6 amended: if the OCR dependency is unavailable, the program fails at
module import before `main` runs: the batch is aborted with zero files
processed and zero side effects — no events at all, hence nothing moved,
nothing written, and no error logged through the logging system — and
every input file is left untouched. -/
theorem missing_dependency_aborts (resolve : String → String) (ts : String)
    (files : List FileEntry) :
    runProgram false resolve ts files = Except.error [] ∧
    movedCount (runEvents (runProgram false resolve ts files)) = 0 ∧
    hasLogError (runEvents (runProgram false resolve ts files)) = false := by
  refine ⟨rfl, rfl, rfl⟩

/-- C7 counterexample: with zero PDF files, the run still calls `mkdir` on
the base `output` directory (creating it when absent) — `setup_folders`
runs before the PDF check — so "the run creates no output directory" is
false on a state where `output` does not yet exist. -/
theorem no_files_counterexample :
    mainRun true (fun s => s) "20240101_120000" [] = Except.ok
      [Event.mkdir "input", Event.mkdir "output",
       Event.consolePrint "No PDF files found in /input folder."] ∧
    Event.mkdir "output" ∈ runEvents (mainRun true (fun s => s) "20240101_120000" []) := by
  refine ⟨rfl, ?_⟩
  decide

/-- C7 amended: with zero PDF files, the run creates no timestamped output
directory, no `original` or `processed` subdirectory and no log file,
sets up no logging, emits only the console message (after ensuring the
base `input` and `output` folders exist), moves nothing, and processes
zero files. -/
theorem no_files_nothing_to_do (importOk : Bool) (resolve : String → String)
    (ts : String) :
    mainRun importOk resolve ts [] = Except.ok
      [Event.mkdir "input", Event.mkdir "output",
       Event.consolePrint "No PDF files found in /input folder."] ∧
    movedCount (runEvents (mainRun importOk resolve ts [])) = 0 := by
  refine ⟨rfl, rfl⟩

/-- C8 counterexample: a fault in the Writing stage of the first file is
uncaught, so the batch halts there: the second file's stages never run —
the loop does not advance to the next file regardless of any stage
fault. -/
theorem stage_fault_halts_counterexample :
    process_pdfs [fWriteFault, gOk2] = Except.error
      [Event.logInfo "Found 2 PDF file(s). Starting OCR...",
       Event.logInfo "[1/2] Processing: w.pdf"] ∧
    Event.logInfo "[2/2] Processing: g.pdf" ∉
      ([Event.logInfo "Found 2 PDF file(s). Starting OCR...",
        Event.logInfo "[1/2] Processing: w.pdf"] : List Event) ∧
    Event.moveOriginal "g.pdf" ∉
      ([Event.logInfo "Found 2 PDF file(s). Starting OCR...",
        Event.logInfo "[1/2] Processing: w.pdf"] : List Event) := by
  refine ⟨rfl, by decide, by decide⟩

/-- C8 amended: for every file the stages occur in the order Extracting
(its log events), then Writing the text file, then Moving the original,
then Logging success, and no stage undoes a prior stage; when Writing
and Moving do not fault the loop advances to the next file (extraction
faults are caught inside Extracting, so they never stop the loop); an
uncaught fault in Writing keeps the events of the prior stages, and an
uncaught fault in Moving keeps them including the write — but such a
fault halts the batch rather than advancing. -/
theorem stage_order_no_rollback (i n : Nat) (f : FileEntry) (fs : List FileEntry) :
    (f.writeFault = false → f.moveFault = false →
      processOne i n f = Except.ok
        (Event.logInfo ("[" ++ toString i ++ "/" ++ toString n ++ "] Processing: " ++ f.name) ::
          (extract_text_from_pdf f.name f.doc).2 ++
          [Event.writeText (f.stem ++ ".txt") (extract_text_from_pdf f.name f.doc).1,
           Event.moveOriginal f.name,
           Event.logInfo ("  ✓ Saved: " ++ f.stem ++ ".txt")]) ∧
      (∀ r, processList (i + 1) n fs = Except.ok r → ∃ evs,
        processOne i n f = Except.ok evs ∧
        processList i n (f :: fs) = Except.ok (evs ++ r))) ∧
    (f.writeFault = false → f.moveFault = true →
      processOne i n f = Except.error
        (Event.logInfo ("[" ++ toString i ++ "/" ++ toString n ++ "] Processing: " ++ f.name) ::
          (extract_text_from_pdf f.name f.doc).2 ++
          [Event.writeText (f.stem ++ ".txt") (extract_text_from_pdf f.name f.doc).1])) ∧
    (f.writeFault = true →
      processOne i n f = Except.error
        (Event.logInfo ("[" ++ toString i ++ "/" ++ toString n ++ "] Processing: " ++ f.name) ::
          (extract_text_from_pdf f.name f.doc).2)) := by
  refine ⟨fun hw hm => ?_, fun hw hm => ?_, fun hw => ?_⟩
  · have hok : processOne i n f = Except.ok
        (Event.logInfo ("[" ++ toString i ++ "/" ++ toString n ++ "] Processing: " ++ f.name) ::
          (extract_text_from_pdf f.name f.doc).2 ++
          [Event.writeText (f.stem ++ ".txt") (extract_text_from_pdf f.name f.doc).1,
           Event.moveOriginal f.name,
           Event.logInfo ("  ✓ Saved: " ++ f.stem ++ ".txt")]) := by
      simp [processOne, hw, hm]
    refine ⟨hok, fun r hr => ⟨_, hok, ?_⟩⟩
    simp [processList, hok, hr]
  · simp [processOne, hw, hm]
  · simp [processOne, hw]

/-- Witness for C8: a file whose Moving stage faults keeps its Writing
event — the write is not rolled back. -/
theorem stage_order_no_rollback_witness :
    processOne 1 1 fMoveFault = Except.error
      [Event.logInfo "[1/1] Processing: m.pdf", Event.writeText "m.txt" ""] := by
  have h := (stage_order_no_rollback 1 1 fMoveFault []).2.1 rfl rfl
  simpa [fMoveFault, extract_text_from_pdf, processPagesFrom, pyStrip] using h

/-- C10: the dependency check in `main` always succeeds: `check_dependencies`
with a successful re-import returns `true` together with the availability
log line, and whenever the program reaches `main` (the module-level
`import easyocr` succeeded, so the re-import inside `check_dependencies`
cannot fail), the whole run equals the straight-line version of `main`
with the abort branch removed — the abort branch is unreachable. -/
theorem dependency_check_always_true (resolve : String → String) (ts : String)
    (files : List FileEntry) :
    check_dependencies true =
      ([Event.logInfo "✓ EasyOCR available (pure Python - no system dependencies needed)"],
        true) ∧
    runProgram true resolve ts files = mainRunStraight resolve ts files := by
  refine ⟨rfl, ?_⟩
  simp only [runProgram, mainRun, mainRunStraight, check_dependencies, if_true]

end PdfOcr
